import Mathlib

/-!
Shallow embedding of the CLMS (Custom Land Management System) core:
the land-plot lifecycle (src/services/landService.js, src/models/LandPlot.js)
and the transaction engine (src/services/transactionService.js,
src/models/Transaction.js, src/controllers/transactionController.js).

Modelling conventions:
* JS numbers are modelled as rationals; `toFixed(2)` becomes `round2`.
* The entity store (sequelize/SQLite) is an explicit `Store` value; every
  service operation is a function `Store → ... → Store × Except Err _`
  returning the store after all persisted effects, mirroring the fact
  that a thrown JS error does not undo prior writes.
* UUIDs are modelled as naturals; `new Date()` and `process.env` are
  supplied through an explicit `Env` record.
* Sequelize validation/hook behaviour (`beforeValidate`, `beforeUpdate`)
  is embedded in the `…Create` / update functions of each model.
-/

namespace CLMS

/-- LandPlot.status enum: AVAILABLE | SOLD | DISPUTED | RESERVED. -/
inductive Status where
  | AVAILABLE
  | SOLD
  | DISPUTED
  | RESERVED
deriving DecidableEq, Repr

/-- LandPlot.sizeUnit enum: ACRES | HECTARES | SQ_METERS. -/
inductive SizeUnit where
  | ACRES
  | HECTARES
  | SQ_METERS
deriving DecidableEq, Repr

/-- A calendar date (the DATEONLY values stored by the models). -/
structure Date where
  year : Nat
  month : Nat
  day : Nat
deriving DecidableEq, Repr

/-- Chronological order on DATEONLY values (SQLite compares the
ISO strings, which orders lexicographically by year, month, day). -/
def dateLe (a b : Date) : Bool :=
  if a.year ≠ b.year then a.year < b.year
  else if a.month ≠ b.month then a.month < b.month
  else a.day ≤ b.day

/-- Error taxonomy of the services (spec section 7), each constructor
carrying the exact message thrown in the source. -/
inductive Err where
  | notFound (msg : String)
  | invalidState (msg : String)
  | invalidInput (msg : String)
  | conflict (msg : String)
deriving DecidableEq, Repr

/-- JS `x.toFixed(2)` on a non-negative value (round half away from
zero; for the positive quantities of this system, round half up). -/
def round2 (x : ℚ) : ℚ := (round (x * 100) : ℤ) / 100

/-- JS `String.prototype.toUpperCase()` (modelled at ASCII level, as
in the plot numbers this system handles), char by char. -/
def strUpper (s : String) : String := ⟨s.data.map Char.toUpper⟩

/-- Drop leading whitespace from a character list. -/
def ltrim (l : List Char) : List Char := l.dropWhile Char.isWhitespace

/-- Drop whitespace at both ends of a character list. -/
def trimChars (l : List Char) : List Char := (ltrim (ltrim l).reverse).reverse

/-- JS `String.prototype.trim()`: remove leading and trailing
whitespace. -/
def strTrim (s : String) : String := ⟨trimChars s.data⟩

/-- JS `x || d` on an optional numeric `x`: both `undefined`/`null`
and `0` are falsy and select the default. -/
def jsOrQ (x : Option ℚ) (d : ℚ) : ℚ :=
  match x with
  | none => d
  | some v => if v = 0 then d else v

/-- Ambient process state: `parseFloat(process.env.COMMISSION_RATE)`
(`none` when the variable is unset or not numeric) and the current
clock used for `new Date()` defaults. -/
structure Env where
  commissionRateEnv : Option ℚ
  now : Date
deriving Repr

/-- The resolved default commission rate:
`parseFloat(process.env.COMMISSION_RATE) || 0.10`. -/
def defaultRate (env : Env) : ℚ := jsOrQ env.commissionRateEnv (1/10)

/-- A LandPlot row (src/models/LandPlot.js). -/
structure Plot where
  id : Nat
  plotNumber : String
  location : String
  size : ℚ
  sizeUnit : SizeUnit
  status : Status
  ownerName : String
  description : Option String
  registrationDate : Date
deriving DecidableEq, Repr

/-- A User row (src/models/User.js); only the fields the transaction
engine consults. -/
structure URec where
  id : Nat
  email : String
deriving DecidableEq, Repr

/-- A Transaction row (src/models/Transaction.js). -/
structure Tx where
  id : Nat
  landPlotId : Nat
  buyerName : String
  buyerContact : String
  sellerName : String
  sellerContact : String
  salePrice : ℚ
  commissionRate : ℚ
  commissionAmount : ℚ
  transactionDate : Date
  receiptPath : Option String
  createdBy : Nat
deriving DecidableEq, Repr

/-- The entity store: all persisted rows plus the id sequences. -/
structure Store where
  plots : List Plot
  users : List URec
  txs : List Tx
  nextPlotId : Nat
  nextTxId : Nat
deriving DecidableEq, Repr

/-- `LandPlot.findByPk(id)`. -/
def findPlot (s : Store) (pid : Nat) : Option Plot :=
  s.plots.find? (fun p => p.id == pid)

/-- `User.findByPk(id)`. -/
def findUser (s : Store) (uid : Nat) : Option URec :=
  s.users.find? (fun u => u.id == uid)

/-- `Transaction.findByPk(id)`. -/
def findTx (s : Store) (tid : Nat) : Option Tx :=
  s.txs.find? (fun t => t.id == tid)

/-- Persist an UPDATE of a plot row (replace the row with that id). -/
def updatePlot (s : Store) (p : Plot) : Store :=
  { s with plots := s.plots.map (fun q => if q.id == p.id then p else q) }

/-- Persist an UPDATE of a transaction row. -/
def updateTx (s : Store) (t : Tx) : Store :=
  { s with txs := s.txs.map (fun q => if q.id == t.id then t else q) }

/-- Plot-number normalization: `plotNumber.toUpperCase().trim()`,
performed both by `LandService.createLandPlot` and by the LandPlot
`beforeValidate` hook. -/
def normalizePlotNumber (s : String) : String := strTrim (strUpper s)

/-- String length between `lo` and `hi` (sequelize `len` validator). -/
def lenBetween (s : String) (lo hi : Nat) : Bool :=
  lo ≤ s.length && s.length ≤ hi

/-- The LandPlot model validators, in attribute order, returning the
messages of every failing validator (sequelize collects them all).
Type-level facts (ENUM membership, isDate, isDecimal, notEmpty of the
UUID references) cannot fail in this embedding. -/
def plotValidationErrors (p : Plot) : List String :=
  (if p.plotNumber = "" then ["Plot number is required"] else [])
  ++ (if lenBetween p.plotNumber 1 50 then [] else
      ["Plot number must be between 1 and 50 characters"])
  ++ (if p.location = "" then ["Location is required"] else [])
  ++ (if lenBetween p.location 2 200 then [] else
      ["Location must be between 2 and 200 characters"])
  ++ (if p.size < 1/100 then ["Size must be greater than 0"] else [])
  ++ (if p.ownerName = "" then ["Owner name is required"] else [])
  ++ (if lenBetween p.ownerName 2 100 then [] else
      ["Owner name must be between 2 and 100 characters"])
  ++ (match p.description with
      | none => []
      | some d => if lenBetween d 0 1000 then [] else
          ["Description cannot exceed 1000 characters"])

/-- The LandPlot `beforeValidate` hook: normalize the plot number. -/
def plotBeforeValidate (p : Plot) : Plot :=
  { p with plotNumber := normalizePlotNumber p.plotNumber }

/-- `LandPlot.create(p)`: runs the `beforeValidate` hook (plot-number
normalization), then the validators; on success appends the row. -/
def landPlotCreate (s : Store) (p : Plot) : Except (List String) (Store × Plot) :=
  match plotValidationErrors (plotBeforeValidate p) with
  | [] => Except.ok
      ({ s with plots := s.plots ++ [plotBeforeValidate p], nextPlotId := s.nextPlotId + 1 },
        plotBeforeValidate p)
  | es => Except.error es

/-- Input record of `LandService.createLandPlot`. -/
structure LandData where
  plotNumber : String
  location : String
  size : ℚ
  sizeUnit : SizeUnit
  ownerName : String
  description : Option String
  status : Option Status
  registrationDate : Option Date
deriving Repr

/-- `landData.description?.trim() || null`. -/
def cleanDescription (d : Option String) : Option String :=
  match d with
  | none => none
  | some s => if strTrim s = "" then none else some (strTrim s)

/-- Join a list of validation messages with `", "`. -/
def joinMsgs (l : List String) : String := String.intercalate ", " l

/-- The LandPlot row `createLandPlot` hands to `LandPlot.create`
(normalized plot number, trimmed strings, defaulted status/date). -/
def landRow (env : Env) (s : Store) (d : LandData) : Plot :=
  { id := s.nextPlotId
    plotNumber := normalizePlotNumber d.plotNumber
    location := strTrim d.location
    size := d.size
    sizeUnit := d.sizeUnit
    status := d.status.getD Status.AVAILABLE
    ownerName := strTrim d.ownerName
    description := cleanDescription d.description
    registrationDate := d.registrationDate.getD env.now }

/-- `LandService.createLandPlot(landData)`: conflict check on the
normalized plot number, then `LandPlot.create`; a thrown error leaves
the store untouched (the check precedes the insert). -/
def createLandPlot (env : Env) (s : Store) (d : LandData) : Store × Except Err Plot :=
  if (s.plots.find? (fun p => p.plotNumber == normalizePlotNumber d.plotNumber)).isSome then
    (s, Except.error (Err.conflict ("Plot number " ++ d.plotNumber ++ " already exists")))
  else
    match landPlotCreate s (landRow env s d) with
    | Except.ok (s1, p) => (s1, Except.ok p)
    | Except.error es =>
        (s, Except.error (Err.invalidInput ("Validation failed: " ++ joinMsgs es)))

/-- `LandService.markAsSold(plotId)`: NotFound when absent, InvalidState
when already SOLD, otherwise persist `status := SOLD`. -/
def markAsSold (s : Store) (pid : Nat) : Store × Except Err Plot :=
  match findPlot s pid with
  | none => (s, Except.error (Err.notFound "Land plot not found"))
  | some p =>
    if p.status = Status.SOLD then
      (s, Except.error (Err.invalidState "Land plot is already marked as sold"))
    else
      let p2 := { p with status := Status.SOLD }
      (updatePlot s p2, Except.ok p2)

/-- Fold a sequence of further `createLandPlot` calls over the store,
keeping whatever state each call (successful or failed) leaves. -/
def applyCreates (env : Env) (s : Store) (ds : List LandData) : Store :=
  ds.foldl (fun st d => (createLandPlot env st d).1) s

/-- The Transaction model validators, in attribute order, returning the
messages of every failing validator. -/
def txValidationErrors (t : Tx) : List String :=
  (if t.buyerName = "" then ["Buyer name is required"] else [])
  ++ (if lenBetween t.buyerName 2 100 then [] else
      ["Buyer name must be between 2 and 100 characters"])
  ++ (if t.buyerContact = "" then ["Buyer contact is required"] else [])
  ++ (if lenBetween t.buyerContact 10 50 then [] else
      ["Buyer contact must be between 10 and 50 characters"])
  ++ (if t.sellerName = "" then ["Seller name is required"] else [])
  ++ (if lenBetween t.sellerName 2 100 then [] else
      ["Seller name must be between 2 and 100 characters"])
  ++ (if t.sellerContact = "" then ["Seller contact is required"] else [])
  ++ (if lenBetween t.sellerContact 10 50 then [] else
      ["Seller contact must be between 10 and 50 characters"])
  ++ (if t.salePrice < 1/100 then ["Sale price must be greater than 0"] else [])
  ++ (if t.commissionRate < 0 then ["Commission rate cannot be negative"] else [])
  ++ (if 1 < t.commissionRate then ["Commission rate cannot exceed 100%"] else [])
  ++ (match t.receiptPath with
      | none => []
      | some r => if lenBetween r 0 500 then [] else
          ["Receipt path cannot exceed 500 characters"])

/-- The Transaction `beforeValidate` hook: recompute
`commissionAmount = (salePrice * commissionRate).toFixed(2)` whenever
`salePrice` is truthy (`commissionRate` is always set in this model). -/
def txBeforeValidate (t : Tx) : Tx :=
  if t.salePrice = 0 then t
  else { t with commissionAmount := round2 (t.salePrice * t.commissionRate) }

/-- `Transaction.create(t)`: `beforeValidate` hook, then the validators;
on success appends the row. -/
def transactionCreate (s : Store) (t : Tx) : Except (List String) (Store × Tx) :=
  match txValidationErrors (txBeforeValidate t) with
  | [] => Except.ok
      ({ s with txs := s.txs ++ [txBeforeValidate t], nextTxId := s.nextTxId + 1 },
        txBeforeValidate t)
  | es => Except.error es

/-- Input record of `TransactionService.recordTransaction`. -/
structure TxData where
  landPlotId : Nat
  buyerName : String
  buyerContact : String
  sellerName : String
  sellerContact : String
  salePrice : ℚ
  commissionRate : Option ℚ
  transactionDate : Option Date
deriving Repr

/-- Steps 1-5 of `recordTransaction` (read-only): load and check the
plot, load the user, resolve the effective commission rate
(`transactionData.commissionRate || parseFloat(process.env.COMMISSION_RATE) || 0.10`). -/
def rtChecks (env : Env) (s : Store) (d : TxData) (createdBy : Nat) : Except Err ℚ :=
  match findPlot s d.landPlotId with
  | none => Except.error (Err.notFound "Land plot not found")
  | some plot =>
    if plot.status = Status.SOLD then
      Except.error (Err.invalidState "Land plot is already sold")
    else if plot.status = Status.DISPUTED then
      Except.error (Err.invalidState "Cannot sell disputed land plot")
    else
      match findUser s createdBy with
      | none => Except.error (Err.notFound "User not found")
      | some _ => Except.ok (jsOrQ d.commissionRate (defaultRate env))

/-- The Transaction row `recordTransaction` hands to
`Transaction.create` (trimmed fields, resolved rate, defaulted date;
`commissionAmount` starts at its model default 0 and is set by the
`beforeValidate` hook). -/
def rtRow (env : Env) (s : Store) (d : TxData) (createdBy : Nat) (rate : ℚ) : Tx :=
  { id := s.nextTxId
    landPlotId := d.landPlotId
    buyerName := strTrim d.buyerName
    buyerContact := strTrim d.buyerContact
    sellerName := strTrim d.sellerName
    sellerContact := strTrim d.sellerContact
    salePrice := d.salePrice
    commissionRate := rate
    commissionAmount := 0
    transactionDate := d.transactionDate.getD env.now
    receiptPath := none
    createdBy := createdBy }

/-- Step 7 of `recordTransaction`: build and persist the Transaction
row (fields trimmed, date defaulted to `new Date()`). -/
def rtInsert (env : Env) (s : Store) (d : TxData) (createdBy : Nat) (rate : ℚ) :
    Store × Except Err Tx :=
  match transactionCreate s (rtRow env s d createdBy rate) with
  | Except.ok (s1, t) => (s1, Except.ok t)
  | Except.error es =>
      (s, Except.error (Err.invalidInput ("Validation failed: " ++ joinMsgs es)))

/-- Steps 7-8 of `recordTransaction` run from store `s`: persist the
row, then call `markAsSold`. A `markAsSold` failure propagates the
error but keeps every already-persisted effect - there is no
transactional boundary and no rollback in the source. -/
def rtFinish (env : Env) (s : Store) (d : TxData) (createdBy : Nat) (rate : ℚ) :
    Store × Except Err Tx :=
  match rtInsert env s d createdBy rate with
  | (s1, Except.error e) => (s1, Except.error e)
  | (s1, Except.ok t) =>
    match markAsSold s1 d.landPlotId with
    | (s2, Except.error e) => (s2, Except.error e)
    | (s2, Except.ok _) => (s2, Except.ok t)

/-- `TransactionService.recordTransaction(transactionData, createdBy)`:
the sequential composition of the check phase and the insert/mark
phase against one store. -/
def recordTransaction (env : Env) (s : Store) (d : TxData) (createdBy : Nat) :
    Store × Except Err Tx :=
  match rtChecks env s d createdBy with
  | Except.error e => (s, Except.error e)
  | Except.ok rate => rtFinish env s d createdBy rate

/-- Two request-parallel `recordTransaction` calls A and B against the
same store under the interleaving
A-checks, B-checks, A-insert, B-insert, A-markAsSold, B-markAsSold
(spec section 5: requests execute concurrently against one store; each
primitive store operation is individually serialized). A call whose
check phase fails performs nothing further; if only one call passes
the checks it simply runs to completion. -/
def twoCallRace (env : Env) (s0 : Store) (dA : TxData) (uA : Nat) (dB : TxData) (uB : Nat) :
    Store × Except Err Tx × Except Err Tx :=
  match rtChecks env s0 dA uA, rtChecks env s0 dB uB with
  | Except.error eA, Except.error eB => (s0, Except.error eA, Except.error eB)
  | Except.error eA, Except.ok rB =>
    let (s1, resB) := rtFinish env s0 dB uB rB
    (s1, Except.error eA, resB)
  | Except.ok rA, Except.error eB =>
    let (s1, resA) := rtFinish env s0 dA uA rA
    (s1, resA, Except.error eB)
  | Except.ok rA, Except.ok rB =>
    let (s1, insA) := rtInsert env s0 dA uA rA
    match insA with
    | Except.error eA =>
      let (s2, resB) := rtFinish env s1 dB uB rB
      (s2, Except.error eA, resB)
    | Except.ok tA =>
      let (s2, insB) := rtInsert env s1 dB uB rB
      match insB with
      | Except.error eB =>
        let (s3, resA) := markAsSold s2 dA.landPlotId
        (s3, resA.map (fun _ => tA), Except.error eB)
      | Except.ok tB =>
        let (s3, resA) := markAsSold s2 dA.landPlotId
        let (s4, resB) := markAsSold s3 dB.landPlotId
        (s4, resA.map (fun _ => tA), resB.map (fun _ => tB))

/-- Render a whole number of hundredths as a 2-decimal string
(the value of `toFixed(2)` for a non-negative argument). -/
def fixed2String (n : Nat) : String :=
  toString (n / 100) ++ "." ++ (if n % 100 < 10 then "0" else "") ++ toString (n % 100)

/-- JS `x.toFixed(2)` as a string. -/
def formatFixed2 (x : ℚ) : String :=
  let c := round (x * 100)
  if c < 0 then "-" ++ fixed2String c.natAbs else fixed2String c.toNat

/-- Result record of `TransactionService.calculateCommission`. -/
structure Breakdown where
  salePrice : ℚ
  commissionRate : ℚ
  commissionAmount : ℚ
  netAmount : ℚ
  commissionPercentage : String
deriving DecidableEq, Repr

/-- `TransactionService.calculateCommission(salePrice, commissionRate)`:
a pure computation; the rate resolves through
`commissionRate || parseFloat(process.env.COMMISSION_RATE) || 0.10`. -/
def calculateCommission (env : Env) (salePrice : ℚ) (commissionRate : Option ℚ) :
    Breakdown :=
  let rate := jsOrQ commissionRate (defaultRate env)
  let commission := round2 (salePrice * rate)
  let netAmount := round2 (salePrice - commission)
  { salePrice := salePrice
    commissionRate := rate
    commissionAmount := commission
    netAmount := netAmount
    commissionPercentage := formatFixed2 (rate * 100) ++ "%" }

/-- `TransactionController.calculateCommission`: the exposed entry
point. `if (!salePrice || parseFloat(salePrice) <= 0)` rejects a
missing, zero (falsy) or non-positive price before delegating to the
pure service function; it threads the store untouched (no
persistence). -/
def controllerCalculateCommission (env : Env) (s : Store)
    (salePrice : Option ℚ) (commissionRate : Option ℚ) :
    Store × Except Err Breakdown :=
  match salePrice with
  | none => (s, Except.error (Err.invalidInput "Valid sale price is required"))
  | some p =>
    if p = 0 then (s, Except.error (Err.invalidInput "Valid sale price is required"))
    else if p ≤ 0 then (s, Except.error (Err.invalidInput "Valid sale price is required"))
    else (s, Except.ok (calculateCommission env p commissionRate))

/-- A patch supplied to `updateTransaction`: the three whitelisted
fields plus the (filtered-out) presence of any other keys. -/
structure TxPatch where
  buyerContact : Option String
  sellerContact : Option String
  receiptPath : Option String
  otherKeys : List String
deriving Repr

/-- Whether the patch still contains a whitelisted field after
filtering against `allowedFields = [buyerContact, sellerContact,
receiptPath]`. -/
def patchHasValidField (p : TxPatch) : Bool :=
  p.buyerContact.isSome || p.sellerContact.isSome || p.receiptPath.isSome

/-- Apply the filtered patch to a transaction row. -/
def applyPatch (t : Tx) (p : TxPatch) : Tx :=
  { t with
    buyerContact := p.buyerContact.getD t.buyerContact
    sellerContact := p.sellerContact.getD t.sellerContact
    receiptPath := match p.receiptPath with
      | none => t.receiptPath
      | some r => some r }

/-- `transaction.update(cleanUpdateData)`: patch the instance, run the
`beforeValidate` hook and the validators, then save. The
`beforeUpdate` hook only recomputes when `salePrice` or
`commissionRate` changed, which a whitelisted patch never does. -/
def txUpdate (s : Store) (t : Tx) (p : TxPatch) : Except (List String) (Store × Tx) :=
  match txValidationErrors (txBeforeValidate (applyPatch t p)) with
  | [] => Except.ok
      (updateTx s (txBeforeValidate (applyPatch t p)), txBeforeValidate (applyPatch t p))
  | es => Except.error es

/-- `TransactionService.updateTransaction(transactionId, updateData)`. -/
def updateTransaction (s : Store) (tid : Nat) (p : TxPatch) : Store × Except Err Tx :=
  match findTx s tid with
  | none => (s, Except.error (Err.notFound "Transaction not found"))
  | some t =>
    if patchHasValidField p = false then
      (s, Except.error (Err.invalidInput "No valid fields to update"))
    else
      match txUpdate s t p with
      | Except.ok (s1, t1) => (s1, Except.ok t1)
      | Except.error es =>
          (s, Except.error (Err.invalidInput ("Validation failed: " ++ joinMsgs es)))

/-- Date-range filter of `getTransactionStatistics`. -/
structure StatFilter where
  startDate : Option Date
  endDate : Option Date
deriving Repr

/-- `transactionDate >= startDate AND transactionDate <= endDate`,
each bound optional. -/
def dateInRange (f : StatFilter) (d : Date) : Bool :=
  (match f.startDate with
   | none => true
   | some a => dateLe a d)
  && (match f.endDate with
      | none => true
      | some b => dateLe d b)

/-- The transactions the statistics queries range over. -/
def filteredTxs (s : Store) (f : StatFilter) : List Tx :=
  s.txs.filter (fun t => dateInRange f t.transactionDate)

/-- Sum of a list of rationals. -/
def sumQ (l : List ℚ) : ℚ := l.foldl (fun a b => a + b) 0

/-- SQL `SUM`: NULL on the empty set. -/
def sqlSum (l : List ℚ) : Option ℚ :=
  match l with
  | [] => none
  | _ => some (sumQ l)

/-- SQL `AVG`: NULL on the empty set. -/
def sqlAvg (l : List ℚ) : Option ℚ :=
  match l with
  | [] => none
  | _ => some (sumQ l / l.length)

/-- SQL `MIN`: NULL on the empty set. -/
def sqlMin (l : List ℚ) : Option ℚ :=
  match l with
  | [] => none
  | x :: xs => some (xs.foldl min x)

/-- SQL `MAX`: NULL on the empty set. -/
def sqlMax (l : List ℚ) : Option ℚ :=
  match l with
  | [] => none
  | x :: xs => some (xs.foldl max x)

/-- `parseFloat(aggregate) || 0`: a NULL aggregate parses to NaN,
which is falsy, so the default 0 is taken. -/
def jsNumOr0 (x : Option ℚ) : ℚ := x.getD 0

/-- One row of the per-month breakdown (`strftime('%Y-%m', ...)`
grouping, modelled as a (year, month) key). -/
structure MonthStat where
  month : Nat × Nat
  transactions : Nat
  revenue : ℚ
  commission : ℚ
deriving DecidableEq, Repr

/-- The `%Y-%m` group key of a date. -/
def monthKey (d : Date) : Nat × Nat := (d.year, d.month)

/-- Descending order on `%Y-%m` keys. -/
def monthGe (a b : Nat × Nat) : Bool :=
  b.1 < a.1 || (a.1 == b.1 && b.2 ≤ a.2)

/-- `GROUP BY strftime('%Y-%m', transactionDate) ORDER BY ... DESC`. -/
def monthlyGroups (l : List Tx) : List MonthStat :=
  let keys := ((l.map (fun t => monthKey t.transactionDate)).dedup).insertionSort
    (fun a b => monthGe a b = true)
  keys.map (fun k =>
    let grp := l.filter (fun t => monthKey t.transactionDate == k)
    { month := k
      transactions := grp.length
      revenue := jsNumOr0 (sqlSum (grp.map (fun t => t.salePrice)))
      commission := jsNumOr0 (sqlSum (grp.map (fun t => t.commissionAmount))) })

/-- Result record of `getTransactionStatistics`. -/
structure TxStats where
  totalTransactions : Nat
  totalRevenue : ℚ
  totalCommission : ℚ
  averagePrice : ℚ
  minPrice : ℚ
  maxPrice : ℚ
  netRevenue : ℚ
  monthlyBreakdown : List MonthStat
deriving Repr

/-- `TransactionService.getTransactionStatistics(filters)`: read-only
aggregates over the date-filtered transaction set, with every NULL
SQL aggregate defaulted to 0 through `parseFloat(..) || 0`. -/
def getTransactionStatistics (s : Store) (f : StatFilter) : TxStats :=
  let l := filteredTxs s f
  let prices := l.map (fun t => t.salePrice)
  let comms := l.map (fun t => t.commissionAmount)
  { totalTransactions := l.length
    totalRevenue := jsNumOr0 (sqlSum prices)
    totalCommission := jsNumOr0 (sqlSum comms)
    averagePrice := jsNumOr0 (sqlAvg prices)
    minPrice := jsNumOr0 (sqlMin prices)
    maxPrice := jsNumOr0 (sqlMax prices)
    netRevenue := jsNumOr0 (sqlSum prices) - jsNumOr0 (sqlSum comms)
    monthlyBreakdown := monthlyGroups l }

/-! ### Concrete fixtures used by the evaluation theorems -/

def sampleEnv : Env := { commissionRateEnv := none, now := ⟨2025, 1, 15⟩ }

def plotAvail : Plot :=
  ⟨1, "GB001", "Tamale North District", 5/2, SizeUnit.ACRES, Status.AVAILABLE,
    "Gbewaa Palace", none, ⟨2024, 6, 1⟩⟩

def plotSold : Plot :=
  ⟨2, "GB002", "Tamale South District", 9/5, SizeUnit.HECTARES, Status.SOLD,
    "Gbewaa Palace", none, ⟨2024, 6, 1⟩⟩

def plotDisputed : Plot :=
  ⟨3, "GB003", "Tamale East District", 1, SizeUnit.ACRES, Status.DISPUTED,
    "Gbewaa Palace", none, ⟨2024, 6, 1⟩⟩

def staffUser : URec := ⟨7, "staff@clms.example"⟩

def sampleTx : Tx :=
  ⟨55, 2, "John Buyer", "+233241234567", "Jane Seller", "+233201234567",
    50000, 1/10, 5000, ⟨2024, 12, 1⟩, none, 7⟩

def baseStore : Store := ⟨[plotAvail, plotSold, plotDisputed], [staffUser], [sampleTx], 4, 100⟩

def raceStore : Store := ⟨[plotAvail], [staffUser], [], 2, 100⟩

def txDataA : TxData :=
  ⟨1, "John Buyer", "+233241234567", "Jane Seller", "+233201234567", 50000, some (1/10), none⟩

def txDataB : TxData :=
  ⟨1, "Ben Buyer", "+233541234567", "Jane Seller", "+233201234567", 60000, some (1/10), none⟩

def txDataSold : TxData := { txDataA with landPlotId := 2 }

def txDataDisputed : TxData := { txDataA with landPlotId := 3 }

def txA1 : Tx :=
  ⟨100, 1, "John Buyer", "+233241234567", "Jane Seller", "+233201234567",
    50000, 1/10, 5000, ⟨2025, 1, 15⟩, none, 7⟩

def txB1 : Tx :=
  ⟨101, 1, "Ben Buyer", "+233541234567", "Jane Seller", "+233201234567",
    60000, 1/10, 6000, ⟨2025, 1, 15⟩, none, 7⟩

def raceS1 : Store := ⟨[plotAvail], [staffUser], [txA1], 2, 101⟩

def raceS2 : Store := ⟨[plotAvail], [staffUser], [txA1, txB1], 2, 102⟩

def soldPlot1 : Plot := { plotAvail with status := Status.SOLD }

def raceS3 : Store := ⟨[soldPlot1], [staffUser], [txA1, txB1], 2, 102⟩

def patch55 : TxPatch := ⟨some "+233999999999", none, none, []⟩

def noFieldPatch : TxPatch := ⟨none, none, none, ["salePrice", "commissionRate"]⟩

def updatedTx55 : Tx := { sampleTx with buyerContact := "+233999999999" }

def statFilter2030 : StatFilter := ⟨some ⟨2030, 1, 1⟩, none⟩

def emptyStore : Store := ⟨[], [], [], 1, 1⟩

def gbLandData : LandData :=
  ⟨"gb001", "Tamale North District", 5/2, SizeUnit.ACRES, "Gbewaa Palace", none, none, none⟩

def gbLandDataUpper : LandData :=
  ⟨"GB001", "Tamale South District", 1, SizeUnit.HECTARES, "Another Owner", none, none, none⟩

def gbPlotCreated : Plot :=
  ⟨1, "GB001", "Tamale North District", 5/2, SizeUnit.ACRES, Status.AVAILABLE,
    "Gbewaa Palace", none, ⟨2025, 1, 15⟩⟩

def gbStore1 : Store := ⟨[gbPlotCreated], [], [], 2, 1⟩

def soldLandData : LandData :=
  ⟨"GB009", "Tamale West District", 2, SizeUnit.ACRES, "Gbewaa Palace", none,
    some Status.SOLD, none⟩

def soldPlotCreated : Plot :=
  ⟨1, "GB009", "Tamale West District", 2, SizeUnit.ACRES, Status.SOLD,
    "Gbewaa Palace", none, ⟨2025, 1, 15⟩⟩

def soldStore1 : Store := ⟨[soldPlotCreated], [], [], 2, 1⟩

def txA0 : Tx :=
  ⟨100, 1, "John Buyer", "+233241234567", "Jane Seller", "+233201234567",
    50000, 1/10, 0, ⟨2025, 1, 15⟩, none, 7⟩

def txB0 : Tx :=
  ⟨101, 1, "Ben Buyer", "+233541234567", "Jane Seller", "+233201234567",
    60000, 1/10, 0, ⟨2025, 1, 15⟩, none, 7⟩

/-! ### Supporting lemmas: characters and normalization -/

theorem char_eq_of_toNat_eq {a b : Char} (h : a.toNat = b.toNat) : a = b :=
  Char.eq_of_val_eq (UInt32.toNat.inj h)

theorem toNat_ofNat_small : ∀ m < 123, (Char.ofNat m).toNat = m := by decide

theorem upChar_eq (c : Char) :
    Char.toUpper c = if c.toNat ≥ 97 ∧ c.toNat ≤ 122 then Char.ofNat (c.toNat - 32) else c := rfl

theorem toNat_upChar (c : Char) (h : c.toNat ≥ 97 ∧ c.toNat ≤ 122) :
    (Char.toUpper c).toNat = c.toNat - 32 := by
  rw [upChar_eq, if_pos h]
  exact toNat_ofNat_small (c.toNat - 32) (by omega)

theorem upChar_idem (c : Char) : Char.toUpper (Char.toUpper c) = Char.toUpper c := by
  by_cases h : c.toNat ≥ 97 ∧ c.toNat ≤ 122
  · have h2 : (Char.toUpper c).toNat = c.toNat - 32 := toNat_upChar c h
    rw [upChar_eq (Char.toUpper c), h2, if_neg (by omega)]
  · rw [upChar_eq c, if_neg h, upChar_eq c, if_neg h]

theorem ws_false_of_ge65 (c : Char) (h : 65 ≤ c.toNat) : Char.isWhitespace c = false := by
  unfold Char.isWhitespace
  simp only [Bool.or_eq_false_iff, decide_eq_false_iff_not]
  refine ⟨⟨⟨?_, ?_⟩, ?_⟩, ?_⟩ <;> intro hc <;> subst hc <;> revert h <;> decide

theorem ws_upChar (c : Char) :
    Char.isWhitespace (Char.toUpper c) = Char.isWhitespace c := by
  by_cases h : c.toNat ≥ 97 ∧ c.toNat ≤ 122
  · rw [ws_false_of_ge65 (Char.toUpper c) (by rw [toNat_upChar c h]; omega),
      ws_false_of_ge65 c (by omega)]
  · rw [upChar_eq, if_neg h]

theorem map_upChar_idem (l : List Char) :
    (l.map Char.toUpper).map Char.toUpper = l.map Char.toUpper := by
  rw [List.map_map]
  exact List.map_congr_left (fun a _ => upChar_idem a)

theorem ws_comp_upChar : Char.isWhitespace ∘ Char.toUpper = Char.isWhitespace :=
  funext ws_upChar

theorem ltrim_map_upChar (l : List Char) :
    ltrim (l.map Char.toUpper) = (ltrim l).map Char.toUpper := by
  unfold ltrim
  rw [List.dropWhile_map, ws_comp_upChar]

theorem trimChars_map_upChar (l : List Char) :
    trimChars (l.map Char.toUpper) = (trimChars l).map Char.toUpper := by
  unfold trimChars
  rw [ltrim_map_upChar, ← List.map_reverse, ltrim_map_upChar, List.map_reverse]

theorem head?_ltrim (l : List Char) (c : Char) (h : (ltrim l).head? = some c) :
    Char.isWhitespace c = false := by
  induction l with
  | nil => simp [ltrim] at h
  | cons a l ih =>
    unfold ltrim at h
    rw [List.dropWhile_cons] at h
    by_cases ha : Char.isWhitespace a
    · rw [if_pos ha] at h
      exact ih h
    · rw [if_neg ha] at h
      simp at h
      subst h
      simpa using ha

theorem ltrim_of_head_ok (l : List Char)
    (h : ∀ c, l.head? = some c → Char.isWhitespace c = false) : ltrim l = l := by
  cases l with
  | nil => rfl
  | cons a l =>
    unfold ltrim
    rw [List.dropWhile_cons, if_neg]
    rw [h a rfl]
    simp

theorem getLast?_ltrim (l : List Char) (h : ltrim l ≠ []) :
    (ltrim l).getLast? = l.getLast? := by
  obtain ⟨t, ht⟩ := List.dropWhile_suffix (l := l) Char.isWhitespace
  conv_rhs => rw [← ht]
  rw [List.getLast?_append]
  cases hgl : (ltrim l).getLast? with
  | none => exact absurd (List.getLast?_eq_none_iff.mp hgl) h
  | some c =>
    show some c = ((ltrim l).getLast?).or t.getLast?
    rw [hgl]
    rfl

theorem trimChars_head_ok (l : List Char) (c : Char) (h : (trimChars l).head? = some c) :
    Char.isWhitespace c = false := by
  unfold trimChars at h
  rw [List.head?_reverse] at h
  have hne : ltrim (ltrim l).reverse ≠ [] := by
    intro hnil
    rw [hnil] at h
    simp at h
  rw [getLast?_ltrim _ hne, List.getLast?_reverse] at h
  exact head?_ltrim l c h

theorem trimChars_last_ok (l : List Char) (c : Char) (h : (trimChars l).getLast? = some c) :
    Char.isWhitespace c = false := by
  unfold trimChars at h
  rw [List.getLast?_reverse] at h
  exact head?_ltrim _ c h

theorem trimChars_of_ok (l : List Char)
    (h1 : ∀ c, l.head? = some c → Char.isWhitespace c = false)
    (h2 : ∀ c, l.getLast? = some c → Char.isWhitespace c = false) :
    trimChars l = l := by
  unfold trimChars
  rw [ltrim_of_head_ok l h1, ltrim_of_head_ok l.reverse
    (fun c hc => h2 c (by rwa [List.head?_reverse] at hc)), List.reverse_reverse]

theorem trimChars_idem (l : List Char) : trimChars (trimChars l) = trimChars l :=
  trimChars_of_ok _ (trimChars_head_ok l) (trimChars_last_ok l)

/-- The hook re-normalization is the identity on an already
normalized plot number. -/
theorem normalizePlotNumber_idem (s : String) :
    normalizePlotNumber (normalizePlotNumber s) = normalizePlotNumber s := by
  unfold normalizePlotNumber strTrim strUpper
  congr 1
  rw [show (String.mk (trimChars (List.map Char.toUpper s.data))).data
      = trimChars (List.map Char.toUpper s.data) from rfl]
  rw [← trimChars_map_upChar, map_upChar_idem, trimChars_idem]

/-! ### Supporting lemmas: rounding and the store -/

/-- A whole number of hundredths (the DECIMAL(12,2) domain of the
monetary columns). -/
def isCents (x : ℚ) : Prop := ∃ n : ℤ, x = (n : ℚ) / 100

theorem round2_of_isCents {x : ℚ} (h : isCents x) : round2 x = x := by
  obtain ⟨n, rfl⟩ := h
  unfold round2
  rw [div_mul_cancel₀ ((n : ℚ)) (by norm_num), round_intCast]

theorem isCents_round2 (x : ℚ) : isCents (round2 x) := ⟨round (x * 100), rfl⟩

theorem isCents_sub {a b : ℚ} (ha : isCents a) (hb : isCents b) : isCents (a - b) := by
  obtain ⟨m, rfl⟩ := ha
  obtain ⟨n, rfl⟩ := hb
  exact ⟨m - n, by push_cast; ring⟩

theorem find?_map_update (l : List Plot) (pid : Nat) (p : Plot)
    (h : l.find? (fun q => q.id == pid) = some p) (p2 : Plot) (hid : p2.id = p.id) :
    (l.map (fun q => if q.id == p2.id then p2 else q)).find? (fun q => q.id == pid)
      = some p2 := by
  have hp : p.id = pid := by simpa using List.find?_some h
  induction l with
  | nil => simp at h
  | cons a l ih =>
    rw [List.find?_cons] at h
    by_cases ha : a.id = pid
    · rw [show (a.id == pid) = true by simpa using ha] at h
      have hap : a = p := by simpa using h
      subst hap
      have : (a.id == p2.id) = true := by simp [hid]
      simp only [List.map_cons, this, if_true]
      rw [List.find?_cons, show (p2.id == pid) = true by simp [hid, hp]]
    · rw [show (a.id == pid) = false by simpa using ha] at h
      have : (a.id == p2.id) = false := by
        simp only [beq_eq_false_iff_ne, ne_eq]
        rw [hid, hp]
        exact ha
      simp only [List.map_cons, this, if_false, Bool.false_eq_true]
      rw [List.find?_cons, show (a.id == pid) = false by simpa using ha]
      exact ih h

theorem rtChecks_ok_rate {env : Env} {s : Store} {d : TxData} {uid : Nat} {rate : ℚ}
    (h : rtChecks env s d uid = Except.ok rate) :
    rate = jsOrQ d.commissionRate (defaultRate env) := by
  unfold rtChecks at h
  cases hp : findPlot s d.landPlotId with
  | none => rw [hp] at h; simp at h
  | some p =>
    rw [hp] at h
    simp only at h
    by_cases hs : p.status = Status.SOLD
    · simp [hs] at h
    · rw [if_neg hs] at h
      by_cases hd : p.status = Status.DISPUTED
      · simp [hd] at h
      · rw [if_neg hd] at h
        cases hu : findUser s uid with
        | none => rw [hu] at h; simp at h
        | some u =>
          rw [hu] at h
          simp only [Except.ok.injEq] at h
          exact h.symm

theorem rtFinish_ok_fields (env : Env) (s : Store) (d : TxData) (uid : Nat) (rate : ℚ)
    (s1 : Store) (tx : Tx) (hprice : d.salePrice ≠ 0)
    (hsucc : rtFinish env s d uid rate = (s1, Except.ok tx)) :
    tx.salePrice = d.salePrice ∧ tx.commissionRate = rate
    ∧ tx.commissionAmount = round2 (d.salePrice * rate) := by
  unfold rtFinish rtInsert at hsucc
  set t0 : Tx := rtRow env s d uid rate with ht0
  unfold transactionCreate at hsucc
  cases hval : txValidationErrors (txBeforeValidate t0) with
  | cons e es => rw [hval] at hsucc; simp at hsucc
  | nil =>
    rw [hval] at hsucc
    simp only at hsucc
    rcases hm : markAsSold
        { s with txs := s.txs ++ [txBeforeValidate t0], nextTxId := s.nextTxId + 1 }
        d.landPlotId with ⟨s2, res⟩
    rw [hm] at hsucc
    cases res with
    | error e => simp at hsucc
    | ok q =>
      have htx : tx = txBeforeValidate t0 := by
        have := congrArg Prod.snd hsucc
        simp at this
        exact this.symm
      subst htx
      unfold txBeforeValidate
      rw [if_neg (by simpa [ht0, rtRow] using hprice)]
      exact ⟨rfl, rfl, rfl⟩

theorem recordTransaction_ok_fields (env : Env) (s : Store) (d : TxData) (uid : Nat)
    (s1 : Store) (tx : Tx) (hprice : d.salePrice ≠ 0)
    (hsucc : recordTransaction env s d uid = (s1, Except.ok tx)) :
    tx.salePrice = d.salePrice
    ∧ tx.commissionRate = jsOrQ d.commissionRate (defaultRate env)
    ∧ tx.commissionAmount
        = round2 (d.salePrice * jsOrQ d.commissionRate (defaultRate env)) := by
  unfold recordTransaction at hsucc
  cases hc : rtChecks env s d uid with
  | error e => rw [hc] at hsucc; simp at hsucc
  | ok rate =>
    rw [hc] at hsucc
    simp only at hsucc
    have hrate : rate = jsOrQ d.commissionRate (defaultRate env) := rtChecks_ok_rate hc
    rw [← hrate]
    exact rtFinish_ok_fields env s d uid rate s1 tx hprice hsucc

theorem createLandPlot_ok (env : Env) (s : Store) (d : LandData) (s1 : Store) (p : Plot)
    (h : createLandPlot env s d = (s1, Except.ok p)) :
    p.plotNumber = normalizePlotNumber d.plotNumber
    ∧ p.status = (d.status.getD Status.AVAILABLE)
    ∧ s1.plots = s.plots ++ [p] := by
  unfold createLandPlot at h
  by_cases hc : (s.plots.find? (fun q => q.plotNumber == normalizePlotNumber d.plotNumber)).isSome
  · rw [if_pos hc] at h
    simp at h
  · rw [if_neg hc] at h
    unfold landPlotCreate at h
    set p0 : Plot := landRow env s d with hp0
    cases hval : plotValidationErrors (plotBeforeValidate p0) with
    | cons e es => rw [hval] at h; simp at h
    | nil =>
      rw [hval] at h
      simp only at h
      have hpp : p = plotBeforeValidate p0
          ∧ s1 = { s with
                   plots := s.plots ++ [plotBeforeValidate p0]
                   nextPlotId := s.nextPlotId + 1 } := by
        have h2 := congrArg Prod.snd h
        have h1 := congrArg Prod.fst h
        simp at h1 h2
        exact ⟨h2.symm, h1.symm⟩
      obtain ⟨hpeq, hseq⟩ := hpp
      subst hpeq
      subst hseq
      refine ⟨?_, rfl, rfl⟩
      show normalizePlotNumber (normalizePlotNumber d.plotNumber)
        = normalizePlotNumber d.plotNumber
      exact normalizePlotNumber_idem d.plotNumber

theorem createLandPlot_preserves_number (env : Env) (st : Store) (d : LandData) (n : String)
    (h : ∃ p ∈ st.plots, p.plotNumber = n) :
    ∃ p ∈ (createLandPlot env st d).1.plots, p.plotNumber = n := by
  unfold createLandPlot
  by_cases hc : (st.plots.find? (fun q => q.plotNumber == normalizePlotNumber d.plotNumber)).isSome
  · rw [if_pos hc]
    exact h
  · rw [if_neg hc]
    unfold landPlotCreate
    cases hval : plotValidationErrors (plotBeforeValidate _) with
    | cons e es => exact h
    | nil =>
      obtain ⟨p, hmem, hpn⟩ := h
      exact ⟨p, List.mem_append_left _ hmem, hpn⟩

theorem applyCreates_preserves_number (env : Env) (ds : List LandData) (st : Store) (n : String)
    (h : ∃ p ∈ st.plots, p.plotNumber = n) :
    ∃ p ∈ (applyCreates env st ds).plots, p.plotNumber = n := by
  induction ds generalizing st with
  | nil => exact h
  | cons d ds ih =>
    exact ih _ (createLandPlot_preserves_number env st d n h)

theorem createLandPlot_conflict (env : Env) (st : Store) (d2 : LandData)
    (h : ∃ p ∈ st.plots, p.plotNumber = normalizePlotNumber d2.plotNumber) :
    createLandPlot env st d2
      = (st, Except.error
          (Err.conflict ("Plot number " ++ d2.plotNumber ++ " already exists"))) := by
  unfold createLandPlot
  rw [if_pos]
  rw [List.find?_isSome]
  obtain ⟨p, hmem, hpn⟩ := h
  exact ⟨p, hmem, by simp [hpn]⟩

/-! ### Claim theorems -/

/-- C1 (amended): for every whole-cent salePrice > 0 and every
commissionRate in (0,1] — caller-supplied to
recordTransaction/calculateCommission, or resolved from the default —
commissionAmount equals salePrice × commissionRate rounded to 2
decimal places and netAmount equals salePrice − commissionAmount.
(The original claim fails in two ways, both exhibited by the
counterexample: a caller-supplied rate of exactly 0 is falsy in JS
and is replaced by the default rate, forcing the restriction to
(0,1]; and netAmount is computed as round2(salePrice − commission),
which differs from salePrice − commissionAmount on fractional-cent
sale prices, forcing the whole-cent restriction — the data model
stores salePrice as DECIMAL(12,2).) -/
theorem C1_commission_formula_amended (env : Env) (p r : ℚ)
    (hp : 0 < p) (hc : isCents p) (hr0 : 0 < r) (hr1 : r ≤ 1) :
    ((calculateCommission env p (some r)).commissionAmount = round2 (p * r)
      ∧ (calculateCommission env p (some r)).netAmount
          = p - (calculateCommission env p (some r)).commissionAmount)
    ∧ ((calculateCommission env p none).commissionAmount = round2 (p * defaultRate env)
      ∧ (calculateCommission env p none).netAmount
          = p - (calculateCommission env p none).commissionAmount)
    ∧ (∀ s d uid s1 tx, d.salePrice = p → d.commissionRate = some r →
        recordTransaction env s d uid = (s1, Except.ok tx) →
        tx.commissionAmount = round2 (p * r) ∧ tx.salePrice = p ∧ tx.commissionRate = r) := by
  have hrne : r ≠ 0 := ne_of_gt hr0
  have hrsome : jsOrQ (some r) (defaultRate env) = r := by simp [jsOrQ, hrne]
  refine ⟨⟨?_, ?_⟩, ⟨?_, ?_⟩, ?_⟩
  · show round2 (p * jsOrQ (some r) (defaultRate env)) = round2 (p * r)
    rw [hrsome]
  · show round2 (p - round2 (p * jsOrQ (some r) (defaultRate env)))
      = p - round2 (p * jsOrQ (some r) (defaultRate env))
    exact round2_of_isCents (isCents_sub hc (isCents_round2 _))
  · show round2 (p * jsOrQ none (defaultRate env)) = round2 (p * defaultRate env)
    rfl
  · show round2 (p - round2 (p * jsOrQ none (defaultRate env)))
      = p - round2 (p * jsOrQ none (defaultRate env))
    exact round2_of_isCents (isCents_sub hc (isCents_round2 _))
  · intro s d uid s1 tx hdp hdr hrec
    have hprice : d.salePrice ≠ 0 := by rw [hdp]; exact ne_of_gt hp
    obtain ⟨h1, h2, h3⟩ := recordTransaction_ok_fields env s d uid s1 tx hprice hrec
    rw [hdr, hrsome] at h2 h3
    rw [hdp] at h1 h3
    exact ⟨h3, h1, h2⟩

/-- C3: recording a transaction against a SOLD plot, or against a
DISPUTED plot, fails with the corresponding InvalidState error
whatever the other inputs are, and leaves the store untouched (the
returned store is the input store: no Transaction row, no mutation). -/
theorem C3_record_rejects_sold_or_disputed
    (env : Env) (s : Store) (d : TxData) (uid : Nat) (p : Plot)
    (hp : findPlot s d.landPlotId = some p) :
    (p.status = Status.SOLD →
      recordTransaction env s d uid
        = (s, Except.error (Err.invalidState "Land plot is already sold")))
    ∧ (p.status = Status.DISPUTED →
      recordTransaction env s d uid
        = (s, Except.error (Err.invalidState "Cannot sell disputed land plot"))) := by
  constructor
  · intro hs
    simp only [recordTransaction, rtChecks, hp, hs, if_true]
  · intro hs
    have hns : p.status ≠ Status.SOLD := by rw [hs]; intro hc; cases hc
    simp only [recordTransaction, rtChecks, hp, if_neg hns, hs, if_true]
    rfl

/-- C4: the exposed calculateCommission entry point never touches the
store (pure, no persistence), fails with the InvalidInput validation
error for every salePrice ≤ 0 (and for a missing salePrice), and for
every positive salePrice returns exactly the pure service
computation. -/
theorem C4_calculateCommission_contract (env : Env) (s : Store)
    (salePrice commissionRate : Option ℚ) :
    (controllerCalculateCommission env s salePrice commissionRate).1 = s
    ∧ (∀ p, salePrice = some p → p ≤ 0 →
      (controllerCalculateCommission env s salePrice commissionRate).2
        = Except.error (Err.invalidInput "Valid sale price is required"))
    ∧ (∀ p, salePrice = some p → 0 < p →
      (controllerCalculateCommission env s salePrice commissionRate).2
        = Except.ok (calculateCommission env p commissionRate)) := by
  refine ⟨?_, fun p hp hle => ?_, fun p hp hpos => ?_⟩
  · unfold controllerCalculateCommission
    cases salePrice with
    | none => rfl
    | some p =>
      by_cases h0 : p = 0
      · simp [h0]
      · by_cases hle : p ≤ 0 <;> simp [h0, hle]
  · subst hp
    unfold controllerCalculateCommission
    by_cases h0 : p = 0
    · simp [h0]
    · simp [h0, hle]
  · subst hp
    have h0 : p ≠ 0 := ne_of_gt hpos
    have hle : ¬ p ≤ 0 := not_le.mpr hpos
    unfold controllerCalculateCommission
    simp [h0, hle]

/-- C5: markAsSold fails with NotFound when the plot is absent, fails
with InvalidState ("already marked as sold") when its status is
already SOLD, and otherwise — for AVAILABLE, RESERVED and also
DISPUTED plots, which this low-level operation does not reject — sets
the status to SOLD and persists it. -/
theorem C5_markAsSold_contract (s : Store) (pid : Nat) :
    (findPlot s pid = none →
      markAsSold s pid = (s, Except.error (Err.notFound "Land plot not found")))
    ∧ (∀ p, findPlot s pid = some p → p.status = Status.SOLD →
      markAsSold s pid
        = (s, Except.error (Err.invalidState "Land plot is already marked as sold")))
    ∧ (∀ p, findPlot s pid = some p → p.status ≠ Status.SOLD →
      (markAsSold s pid).2 = Except.ok { p with status := Status.SOLD }
      ∧ findPlot (markAsSold s pid).1 pid = some { p with status := Status.SOLD }) := by
  refine ⟨fun hn => ?_, fun p hp hs => ?_, fun p hp hs => ?_⟩
  · simp only [markAsSold, hn]
  · simp only [markAsSold, hp, hs, if_true]
  · simp only [markAsSold, hp, if_neg hs]
    constructor
    · trivial
    · unfold findPlot updatePlot
      exact find?_map_update s.plots pid p hp _ rfl

/-- C6: a successful updateTransaction leaves the financial fields
(salePrice, commissionRate, commissionAmount) and landPlotId,
createdBy — as well as buyerName, sellerName, transactionDate and the
id — of the transaction unchanged; only buyerContact, sellerContact
and receiptPath can differ. The derived-field invariant of the data
model (commissionAmount = round2(salePrice × commissionRate), which
every creation establishes) is assumed of the stored row, since the
beforeValidate hook re-derives commissionAmount on every save. -/
theorem C6_update_preserves_financial_fields (s : Store) (tid : Nat) (patch : TxPatch)
    (tx : Tx) (s1 : Store) (tx1 : Tx)
    (hfind : findTx s tid = some tx)
    (hinv : tx.commissionAmount = round2 (tx.salePrice * tx.commissionRate))
    (hsucc : updateTransaction s tid patch = (s1, Except.ok tx1)) :
    tx1.id = tx.id ∧ tx1.landPlotId = tx.landPlotId ∧ tx1.buyerName = tx.buyerName
    ∧ tx1.sellerName = tx.sellerName ∧ tx1.salePrice = tx.salePrice
    ∧ tx1.commissionRate = tx.commissionRate
    ∧ tx1.commissionAmount = tx.commissionAmount
    ∧ tx1.transactionDate = tx.transactionDate ∧ tx1.createdBy = tx.createdBy := by
  simp only [updateTransaction, hfind] at hsucc
  by_cases hv : patchHasValidField patch = false
  · simp [hv] at hsucc
  · rw [if_neg hv] at hsucc
    simp only [txUpdate] at hsucc
    cases hval : txValidationErrors (txBeforeValidate (applyPatch tx patch)) with
    | cons e es => rw [hval] at hsucc; simp at hsucc
    | nil =>
      rw [hval] at hsucc
      have htx1 : tx1 = txBeforeValidate (applyPatch tx patch) := by
        have := congrArg Prod.snd hsucc
        simp at this
        exact this.symm
      subst htx1
      unfold txBeforeValidate
      by_cases h0 : (applyPatch tx patch).salePrice = 0
      · rw [if_pos h0]
        exact ⟨rfl, rfl, rfl, rfl, rfl, rfl, rfl, rfl, rfl⟩
      · rw [if_neg h0]
        refine ⟨rfl, rfl, rfl, rfl, rfl, rfl, ?_, rfl, rfl⟩
        show round2 ((applyPatch tx patch).salePrice * (applyPatch tx patch).commissionRate)
          = tx.commissionAmount
        rw [show (applyPatch tx patch).salePrice = tx.salePrice from rfl,
          show (applyPatch tx patch).commissionRate = tx.commissionRate from rfl]
        exact hinv.symm

/-- C7: updateTransaction fails with NotFound for an unknown
transaction id, and fails with InvalidInput ("No valid fields to
update") for every patch with no whitelisted field left after
filtering; in both cases the store is returned unchanged. -/
theorem C7_update_failure_modes (s : Store) (tid : Nat) (patch : TxPatch) :
    (findTx s tid = none →
      updateTransaction s tid patch
        = (s, Except.error (Err.notFound "Transaction not found")))
    ∧ (∀ tx, findTx s tid = some tx → patchHasValidField patch = false →
      updateTransaction s tid patch
        = (s, Except.error (Err.invalidInput "No valid fields to update"))) := by
  constructor
  · intro hn
    simp only [updateTransaction, hn]
  · intro tx htx hv
    simp only [updateTransaction, htx, hv, if_true]

/-- C8: when the date-range filter leaves the transaction set empty,
every numeric aggregate of getTransactionStatistics is 0. -/
theorem C8_stats_zero_on_empty (s : Store) (f : StatFilter)
    (h : filteredTxs s f = []) :
    (getTransactionStatistics s f).totalTransactions = 0
    ∧ (getTransactionStatistics s f).totalRevenue = 0
    ∧ (getTransactionStatistics s f).totalCommission = 0
    ∧ (getTransactionStatistics s f).averagePrice = 0
    ∧ (getTransactionStatistics s f).minPrice = 0
    ∧ (getTransactionStatistics s f).maxPrice = 0
    ∧ (getTransactionStatistics s f).netRevenue = 0 := by
  simp [getTransactionStatistics, h, sqlSum, sqlAvg, sqlMin, sqlMax, jsNumOr0]

/-- C9: after createLandPlot succeeds for some plotNumber, every
later createLandPlot — regardless of intervening plot creations —
whose plotNumber normalizes to the same string (differs only in
letter case or surrounding whitespace) fails with the Conflict error
and leaves the store unchanged. -/
theorem C9_plot_number_conflict (env : Env) (s0 : Store) (d : LandData)
    (s1 : Store) (p : Plot)
    (hsucc : createLandPlot env s0 d = (s1, Except.ok p))
    (ds : List LandData) (d2 : LandData)
    (hnorm : normalizePlotNumber d2.plotNumber = normalizePlotNumber d.plotNumber) :
    createLandPlot env (applyCreates env s1 ds) d2
      = (applyCreates env s1 ds,
         Except.error (Err.conflict ("Plot number " ++ d2.plotNumber ++ " already exists"))) := by
  obtain ⟨hpn, hstat, hplots⟩ := createLandPlot_ok env s0 d s1 p hsucc
  have h1 : ∃ q ∈ s1.plots, q.plotNumber = normalizePlotNumber d.plotNumber := by
    refine ⟨p, ?_, hpn⟩
    rw [hplots]
    exact List.mem_append_right _ (List.mem_singleton.mpr rfl)
  have h2 := applyCreates_preserves_number env ds s1 _ h1
  exact createLandPlot_conflict env _ d2 (by rw [hnorm]; exact h2)

/-- C10: a successful createLandPlot stores exactly the
caller-supplied status when one is supplied (including SOLD,
DISPUTED, RESERVED), and stores AVAILABLE exactly when no status is
supplied. -/
theorem C10_create_status_passthrough (env : Env) (s : Store) (d : LandData)
    (s1 : Store) (p : Plot)
    (hsucc : createLandPlot env s d = (s1, Except.ok p)) :
    (∀ st, d.status = some st → p.status = st)
    ∧ (d.status = none → p.status = Status.AVAILABLE) := by
  obtain ⟨hpn, hstat, hplots⟩ := createLandPlot_ok env s d s1 p hsucc
  constructor
  · intro st hst
    rw [hstat, hst]
    rfl
  · intro hst
    rw [hstat, hst]
    rfl

/-- C1 counterexample, exhibiting both failure modes of the claim as
stated. First input, salePrice 100 with caller-supplied
commissionRate 0 (which lies in [0,1]): the computed commissionAmount
is 10 — the default rate 0.10 silently replaces the falsy 0 — while
round(100 × 0, 2) = 0, so the commissionAmount clause fails; this
forces restricting the caller-supplied rate to (0,1]. Second input,
the fractional-cent salePrice 0.005 with rate 0.5 (commissionAmount
round2(0.0025) = 0 as claimed): the code computes
netAmount = round2(salePrice − commission) = round2(0.005) = 0.01,
while the claim demands salePrice − commissionAmount = 0.005, so the
netAmount clause fails; this forces restricting salePrice to
whole-cent amounts (the DECIMAL(12,2) domain of the data model). -/
theorem C1_counterexample :
    ((calculateCommission sampleEnv 100 (some 0)).commissionAmount = 10
      ∧ round2 (100 * 0) = 0
      ∧ (calculateCommission sampleEnv 100 (some 0)).commissionAmount ≠ round2 (100 * 0))
    ∧ ((calculateCommission sampleEnv (1/200) (some (1/2))).commissionAmount
          = round2 (1/200 * (1/2))
      ∧ (calculateCommission sampleEnv (1/200) (some (1/2))).netAmount = 1/100
      ∧ (calculateCommission sampleEnv (1/200) (some (1/2))).netAmount
          ≠ 1/200 - (calculateCommission sampleEnv (1/200) (some (1/2))).commissionAmount) := by
  refine ⟨⟨?_, ?_, ?_⟩, ⟨?_, ?_, ?_⟩⟩ <;>
    norm_num [calculateCommission, sampleEnv, jsOrQ, defaultRate, round2, round_eq]

/-- Witness for C1: the amended formula evaluated at salePrice 50000
and rate 0.15 (the spec scenario: commission 7500 = round2(50000 × 0.15),
netAmount = salePrice − commission). -/
theorem C1_commission_formula_amended_witness :
    (0:ℚ) < 50000 ∧ isCents 50000 ∧ (0:ℚ) < 15/100 ∧ (15:ℚ)/100 ≤ 1
    ∧ (calculateCommission sampleEnv 50000 (some (15/100))).commissionAmount
        = round2 (50000 * (15/100))
    ∧ (calculateCommission sampleEnv 50000 (some (15/100))).netAmount
        = 50000 - (calculateCommission sampleEnv 50000 (some (15/100))).commissionAmount := by
  have h := C1_commission_formula_amended sampleEnv 50000 (15/100) (by norm_num)
    ⟨5000000, by norm_num⟩ (by norm_num) (by norm_num)
  exact ⟨by norm_num, ⟨5000000, by norm_num⟩, by norm_num, by norm_num, h.1.1, h.1.2⟩

/-- C2 (failing input): two request-parallel recordTransaction calls
against the same AVAILABLE plot, interleaved as A-checks, B-checks,
A-insert, B-insert, A-markAsSold, B-markAsSold. Call B fails at
markAsSold with InvalidState, yet the final store raceS3 still holds
B's Transaction row txB1 next to A's txA1 — the insert is not rolled
back, because recordTransaction wraps no transactional boundary
around steps 7-8. -/
theorem C2_race_losing_insert_persists :
    twoCallRace sampleEnv raceStore txDataA 7 txDataB 7
      = (raceS3, Except.ok txA1,
         Except.error (Err.invalidState "Land plot is already marked as sold"))
    ∧ txB1 ∈ raceS3.txs := by
  constructor
  · have hjs : jsOrQ (some (1/10 : ℚ)) (defaultRate sampleEnv) = 1/10 := by norm_num [jsOrQ]
    have hA : rtChecks sampleEnv raceStore txDataA 7 = Except.ok (1/10) := by
      rw [show rtChecks sampleEnv raceStore txDataA 7
          = Except.ok (jsOrQ (some (1/10)) (defaultRate sampleEnv)) from rfl, hjs]
    have hB : rtChecks sampleEnv raceStore txDataB 7 = Except.ok (1/10) := by
      rw [show rtChecks sampleEnv raceStore txDataB 7
          = Except.ok (jsOrQ (some (1/10)) (defaultRate sampleEnv)) from rfl, hjs]
    have hbvA : txBeforeValidate txA0 = txA1 := by
      norm_num [txBeforeValidate, txA0, txA1, round2, round_eq]
    have hvalA : txValidationErrors txA1 = [] := by
      simp only [txValidationErrors, txA1, lenBetween]
      norm_num
      decide
    have hIA : rtInsert sampleEnv raceStore txDataA 7 (1/10) = (raceS1, Except.ok txA1) := by
      simp only [rtInsert, transactionCreate]
      rw [show rtRow sampleEnv raceStore txDataA 7 (1/10) = txA0 from rfl, hbvA, hvalA]
      simp [raceStore, raceS1]
    have hbvB : txBeforeValidate txB0 = txB1 := by
      norm_num [txBeforeValidate, txB0, txB1, round2, round_eq]
    have hvalB : txValidationErrors txB1 = [] := by
      simp only [txValidationErrors, txB1, lenBetween]
      norm_num
      decide
    have hIB : rtInsert sampleEnv raceS1 txDataB 7 (1/10) = (raceS2, Except.ok txB1) := by
      simp only [rtInsert, transactionCreate]
      rw [show rtRow sampleEnv raceS1 txDataB 7 (1/10) = txB0 from rfl, hbvB, hvalB]
      simp [raceS1, raceS2]
    have hMA : markAsSold raceS2 1 = (raceS3, Except.ok soldPlot1) := rfl
    have hMB : markAsSold raceS3 1
        = (raceS3, Except.error (Err.invalidState "Land plot is already marked as sold")) := rfl
    have hlandA : txDataA.landPlotId = 1 := rfl
    have hlandB : txDataB.landPlotId = 1 := rfl
    simp only [twoCallRace, hA, hB, hIA, hlandA, hIB, hlandB, hMA, hMB, Except.map]
  · exact List.mem_cons_of_mem _ (List.mem_singleton.mpr rfl)

/-- Witness for C3: the SOLD plot (id 2) and the DISPUTED plot (id 3)
of the base store both make recordTransaction fail with InvalidState
and leave the store unchanged. -/
theorem C3_record_rejects_sold_or_disputed_witness :
    recordTransaction sampleEnv baseStore txDataSold 7
      = (baseStore, Except.error (Err.invalidState "Land plot is already sold"))
    ∧ recordTransaction sampleEnv baseStore txDataDisputed 7
      = (baseStore, Except.error (Err.invalidState "Cannot sell disputed land plot")) :=
  ⟨(C3_record_rejects_sold_or_disputed sampleEnv baseStore txDataSold 7 plotSold rfl).1 rfl,
   (C3_record_rejects_sold_or_disputed sampleEnv baseStore txDataDisputed 7 plotDisputed rfl).2
     rfl⟩

/-- Witness for C4: salePrice −5 is rejected with the validation
error and the store is untouched. -/
theorem C4_calculateCommission_contract_witness :
    (controllerCalculateCommission sampleEnv baseStore (some (-5)) none).1 = baseStore
    ∧ (controllerCalculateCommission sampleEnv baseStore (some (-5)) none).2
        = Except.error (Err.invalidInput "Valid sale price is required") :=
  ⟨(C4_calculateCommission_contract sampleEnv baseStore (some (-5)) none).1,
   (C4_calculateCommission_contract sampleEnv baseStore (some (-5)) none).2.1 (-5) rfl
     (by norm_num)⟩

/-- Witness for C5: absent plot 99 gives NotFound, SOLD plot 2 gives
InvalidState, and the DISPUTED plot 3 is marked SOLD and persisted. -/
theorem C5_markAsSold_contract_witness :
    markAsSold baseStore 99 = (baseStore, Except.error (Err.notFound "Land plot not found"))
    ∧ markAsSold baseStore 2
        = (baseStore, Except.error (Err.invalidState "Land plot is already marked as sold"))
    ∧ (markAsSold baseStore 3).2 = Except.ok { plotDisputed with status := Status.SOLD }
    ∧ findPlot (markAsSold baseStore 3).1 3
        = some { plotDisputed with status := Status.SOLD } :=
  ⟨(C5_markAsSold_contract baseStore 99).1 rfl,
   (C5_markAsSold_contract baseStore 2).2.1 plotSold rfl rfl,
   ((C5_markAsSold_contract baseStore 3).2.2 plotDisputed rfl (by decide)).1,
   ((C5_markAsSold_contract baseStore 3).2.2 plotDisputed rfl (by decide)).2⟩

/-- Witness for C6: patching buyerContact of transaction 55 succeeds
and leaves every financial field (and landPlotId, createdBy)
unchanged. -/
theorem C6_update_preserves_financial_fields_witness :
    updateTransaction baseStore 55 patch55
      = (updateTx baseStore updatedTx55, Except.ok updatedTx55)
    ∧ updatedTx55.salePrice = sampleTx.salePrice
    ∧ updatedTx55.commissionRate = sampleTx.commissionRate
    ∧ updatedTx55.commissionAmount = sampleTx.commissionAmount
    ∧ updatedTx55.landPlotId = sampleTx.landPlotId
    ∧ updatedTx55.createdBy = sampleTx.createdBy := by
  have happ : applyPatch sampleTx patch55 = updatedTx55 := rfl
  have hbv : txBeforeValidate updatedTx55 = updatedTx55 := by
    norm_num [txBeforeValidate, updatedTx55, sampleTx, round2, round_eq]
  have hval : txValidationErrors updatedTx55 = [] := by
    simp only [txValidationErrors, updatedTx55, sampleTx, lenBetween]
    norm_num
    decide
  have hsucc : updateTransaction baseStore 55 patch55
      = (updateTx baseStore updatedTx55, Except.ok updatedTx55) := by
    simp only [updateTransaction]
    rw [show findTx baseStore 55 = some sampleTx from rfl]
    simp only [txUpdate, happ, hbv, hval]
    rw [if_neg (by decide)]
  have h := C6_update_preserves_financial_fields baseStore 55 patch55 sampleTx
    (updateTx baseStore updatedTx55) updatedTx55 rfl
    (by norm_num [sampleTx, round2, round_eq]) hsucc
  obtain ⟨hid, hlp, hbn, hsn, hsp, hcr, hca, htd, hcb⟩ := h
  exact ⟨hsucc, hsp, hcr, hca, hlp, hcb⟩

/-- Witness for C7: unknown id 999 gives NotFound; a patch carrying
only non-whitelisted keys gives the InvalidInput error; the store is
unchanged both times. -/
theorem C7_update_failure_modes_witness :
    updateTransaction baseStore 999 patch55
      = (baseStore, Except.error (Err.notFound "Transaction not found"))
    ∧ updateTransaction baseStore 55 noFieldPatch
      = (baseStore, Except.error (Err.invalidInput "No valid fields to update")) :=
  ⟨(C7_update_failure_modes baseStore 999 patch55).1 rfl,
   (C7_update_failure_modes baseStore 55 noFieldPatch).2 sampleTx rfl rfl⟩

/-- Witness for C8: a start date of 2030-01-01 filters out every
stored transaction, and all aggregates come back 0. -/
theorem C8_stats_zero_on_empty_witness :
    filteredTxs baseStore statFilter2030 = []
    ∧ (getTransactionStatistics baseStore statFilter2030).totalTransactions = 0
    ∧ (getTransactionStatistics baseStore statFilter2030).totalRevenue = 0
    ∧ (getTransactionStatistics baseStore statFilter2030).totalCommission = 0
    ∧ (getTransactionStatistics baseStore statFilter2030).averagePrice = 0
    ∧ (getTransactionStatistics baseStore statFilter2030).minPrice = 0
    ∧ (getTransactionStatistics baseStore statFilter2030).maxPrice = 0
    ∧ (getTransactionStatistics baseStore statFilter2030).netRevenue = 0 := by
  have h := C8_stats_zero_on_empty baseStore statFilter2030 rfl
  exact ⟨rfl, h.1, h.2.1, h.2.2.1, h.2.2.2.1, h.2.2.2.2.1, h.2.2.2.2.2.1, h.2.2.2.2.2.2⟩

/-- Witness for C9: creating "gb001" succeeds (stored normalized as
"GB001"); creating "GB001" afterwards fails with the Conflict error
and leaves the store unchanged. -/
theorem C9_plot_number_conflict_witness :
    createLandPlot sampleEnv emptyStore gbLandData = (gbStore1, Except.ok gbPlotCreated)
    ∧ normalizePlotNumber "GB001" = normalizePlotNumber "gb001"
    ∧ createLandPlot sampleEnv gbStore1 gbLandDataUpper
      = (gbStore1, Except.error (Err.conflict "Plot number GB001 already exists")) := by
  have hrow : plotBeforeValidate (landRow sampleEnv emptyStore gbLandData) = gbPlotCreated := rfl
  have hval : plotValidationErrors gbPlotCreated = [] := by
    simp only [plotValidationErrors, gbPlotCreated, lenBetween]
    norm_num
    decide
  have hsucc : createLandPlot sampleEnv emptyStore gbLandData
      = (gbStore1, Except.ok gbPlotCreated) := by
    simp only [createLandPlot]
    rw [if_neg (by decide)]
    simp only [landPlotCreate, hrow, hval]
    simp [emptyStore, gbStore1]
  refine ⟨hsucc, by decide, ?_⟩
  exact C9_plot_number_conflict sampleEnv emptyStore gbLandData gbStore1 gbPlotCreated hsucc
    [] gbLandDataUpper (by decide)

/-- Witness for C10: a plot created with an explicit SOLD status
enters the store already SOLD, with no state-machine transition. -/
theorem C10_create_status_passthrough_witness :
    createLandPlot sampleEnv emptyStore soldLandData = (soldStore1, Except.ok soldPlotCreated)
    ∧ soldPlotCreated.status = Status.SOLD := by
  have hrow : plotBeforeValidate (landRow sampleEnv emptyStore soldLandData)
      = soldPlotCreated := rfl
  have hval : plotValidationErrors soldPlotCreated = [] := by
    simp only [plotValidationErrors, soldPlotCreated, lenBetween]
    norm_num
    decide
  have hsucc : createLandPlot sampleEnv emptyStore soldLandData
      = (soldStore1, Except.ok soldPlotCreated) := by
    simp only [createLandPlot]
    rw [if_neg (by decide)]
    simp only [landPlotCreate, hrow, hval]
    simp [emptyStore, soldStore1]
  exact ⟨hsucc, (C10_create_status_passthrough sampleEnv emptyStore soldLandData soldStore1
    soldPlotCreated hsucc).1 Status.SOLD rfl⟩

end CLMS

